import Mathlib

/-!
Verification development for the flow2api gateway core.

Shallow embedding of:
  * `src/services/load_balancer.py`   — `LoadBalancer.select_token`
  * `src/core/auth.py`                — `AuthManager.get_api_key_type`
  * `src/services/browser_captcha.py` — proxy URL parsing/validation,
    the `BrowserCaptchaService` lifecycle, the semaphore admission gate,
    the spacing (rate-limit) section, and the error handling of `get_token`.

Python strings are modelled as Lean `String` (or `List Char` where we need
to reason about the characters), machine booleans as `Bool`, `None`-able
values as `Option`, raised exceptions as `Except`.
-/

/-! ## Load balancer (`src/services/load_balancer.py`) -/

/-- Key-type constant `API_KEY_TYPE_NORMAL = "normal"` from `src/core/auth.py`. -/
def API_KEY_TYPE_NORMAL : String := "normal"

/-- Key-type constant `API_KEY_TYPE_PREMIUM = "premium"` from `src/core/auth.py`. -/
def API_KEY_TYPE_PREMIUM : String := "premium"

/-- Constant `PREMIUM_PAYGATE_TIERS` from `load_balancer.py` line 10: only
`PAYGATE_TIER_TWO` counts as premium. -/
def PREMIUM_PAYGATE_TIERS : List String := ["PAYGATE_TIER_TWO"]

/-- The `Token` record fields that `select_token` reads
(`src/core/models.py` is external; only these fields are consumed). -/
structure Token where
  id : Nat
  email : String
  credits : Int
  image_enabled : Bool
  video_enabled : Bool
  user_paygate_tier : String
deriving DecidableEq, Repr

/-- The external collaborators `select_token` consults: the validity check
`is_at_valid` of the token manager and the optional concurrency manager
(`can_use_image` / `can_use_video`).  `has_concurrency_manager = false`
models `self.concurrency_manager is None`. -/
structure LBEnv where
  is_at_valid : Nat → Bool
  has_concurrency_manager : Bool
  can_use_image : Nat → Bool
  can_use_video : Nat → Bool

/-- The body of the `for token in active_tokens` loop of
`LoadBalancer.select_token` (lines 54–88): `true` iff the token survives
every `continue` and is appended to `available_tokens`. -/
def eligibleToken (env : LBEnv) (for_image_generation for_video_generation : Bool)
    (api_key_type : Option String) (t : Token) : Bool :=
  if !(env.is_at_valid t.id) then false
  else if api_key_type = some API_KEY_TYPE_PREMIUM
      ∧ ¬ (t.user_paygate_tier ∈ PREMIUM_PAYGATE_TIERS) then false
  else if for_image_generation ∧ ¬ t.image_enabled then false
  else if for_image_generation ∧ env.has_concurrency_manager
      ∧ ¬ (env.can_use_image t.id) then false
  else if for_video_generation ∧ ¬ t.video_enabled then false
  else if for_video_generation ∧ env.has_concurrency_manager
      ∧ ¬ (env.can_use_video t.id) then false
  else true

/-- Model of `LoadBalancer.select_token` (lines 20–103).  `active_tokens` is the pool
returned by `token_manager.get_active_tokens()`; `draw` models the random
draw of `random.choice` (an arbitrary natural, reduced mod the length of
`available_tokens`).  The `model` argument is accepted exactly as in the
source, where it is only logged. -/
def select_token (env : LBEnv) (for_image_generation for_video_generation : Bool)
    (model : Option String) (api_key_type : Option String)
    (active_tokens : List Token) (draw : Nat) : Option Token :=
  if active_tokens.isEmpty then none
  else
    let available_tokens := active_tokens.filter
      (eligibleToken env for_image_generation for_video_generation api_key_type)
    if available_tokens.isEmpty then none
    else available_tokens[draw % available_tokens.length]?

/-! ## API key classification (`src/core/auth.py`) -/

/-- The two configured credentials read from `config`.  In the source
`config.premium_api_key` may be unset/empty and Python tests its
truthiness, so the empty string models "not configured". -/
structure AuthConfig where
  api_key : String
  premium_api_key : String
deriving DecidableEq, Repr

/-- Model of `AuthManager.get_api_key_type` (auth.py lines 28–40): primary key →
`"normal"`; otherwise, if the premium key is configured (truthy) and the
credential equals it → `"premium"`; otherwise `None`. -/
def get_api_key_type (cfg : AuthConfig) (api_key : String) : Option String :=
  if api_key = cfg.api_key then some API_KEY_TYPE_NORMAL
  else if cfg.premium_api_key ≠ "" ∧ api_key = cfg.premium_api_key then
    some API_KEY_TYPE_PREMIUM
  else none

/-! ## Browser captcha service lifecycle (`src/services/browser_captcha.py`) -/

/-- The lifecycle-relevant state of the `BrowserCaptchaService` singleton:
`self._initialized` and whether `self.context` is set (`hasContext = false`
models `self.context is None`). -/
structure SessionState where
  initialized : Bool
  hasContext : Bool
deriving DecidableEq, Repr

/-- Model of the browser launch method of `BrowserCaptchaService`
(lines 122–177), success path: a no-op when `_initialized` is already true, otherwise launches the browser,
sets `self.context` and `self._initialized = True`. -/
def initBrowser (s : SessionState) : SessionState :=
  if s.initialized then s else ⟨true, true⟩

/-- Model of `BrowserCaptchaService.close` (lines 440–464): clears `self.context`
and `self.playwright` and resets `self._initialized = False` (close errors
are swallowed and do not change this outcome). -/
def closeBrowser (_s : SessionState) : SessionState :=
  ⟨false, false⟩

/-- The re-entry logic at the top of `BrowserCaptchaService.get_token`
(lines 188–200): if not initialized or the context is gone, call
`initialize`; then probe `self.context.pages`, and if the probe throws
(`alive = false`), force the state back to uninitialized and call
`initialize` again. -/
def getTokenEntry (s : SessionState) (alive : Bool) : SessionState :=
  let s1 := if ¬ s.initialized ∨ ¬ s.hasContext then initBrowser s else s
  if alive then s1 else initBrowser ⟨false, false⟩

/-! ## Admission semaphore (`BrowserCaptchaService._token_semaphore`) -/

/-- Constant `self.max_concurrent = 2` (browser_captcha.py line 106), the value the
singleton semaphore is constructed with in `get_instance` (line 118). -/
def max_concurrent : Nat := 2

/-- State of `asyncio.Semaphore(max_concurrent)` together with an
instrumented count of callers currently inside the `async with
self._token_semaphore:` block of `get_token`: `avail` is the internal
semaphore value, `holders` the number of slot holders. -/
structure SemState where
  avail : Nat
  holders : Nat
deriving DecidableEq, Repr

/-- Atomic transitions of the admission gate: a caller acquires the
semaphore only when its value is positive (otherwise it blocks), and a
holder leaving the `async with` block releases it. -/
inductive SemStep : SemState → SemState → Prop
  | acquire (s : SemState) (h : 0 < s.avail) :
      SemStep s ⟨s.avail - 1, s.holders + 1⟩
  | release (s : SemState) (h : 0 < s.holders) :
      SemStep s ⟨s.avail + 1, s.holders - 1⟩

/-- States reachable from the freshly constructed semaphore
(`asyncio.Semaphore(2)`, nobody inside the guarded section), under any
number of concurrent `get_token` callers interleaved in any order. -/
inductive SemReachable : SemState → Prop
  | init : SemReachable ⟨max_concurrent, 0⟩
  | step {s s' : SemState} : SemReachable s → SemStep s s' → SemReachable s'

/-! ## Spacing section of `get_token` (browser_captcha.py lines 203–213)

Time is modelled in tenths of a second (`Int`), so `min_interval = 1.0s`
is `10` and the jitter `random.uniform(0.1, 0.5)` is an integer in
`[1, 5]`.  asyncio is cooperative: code between two `await`s runs
atomically.  The spacing section has exactly one `await`
(`asyncio.sleep(wait_time)`), taken only when `elapsed < min_interval`,
which splits the execution of a holder into at most two atomic blocks:

  * block 1 (after acquiring the semaphore): read `time.time()`, compute
    `elapsed = now - _last_request_time`; if `elapsed >= min_interval`,
    also write `_last_request_time = time.time()` and start the attempt
    in the same block; otherwise compute `wait_time` and suspend;
  * block 2 (on waking from the sleep): write
    `_last_request_time = time.time()` and start the attempt. -/

/-- Constant `self.min_interval = 1.0` (line 109), in tenths of a second. -/
def min_interval : Int := 10

/-- Where one semaphore holder stands in the spacing section. -/
inductive HolderPhase where
  | atCheck
  | sleeping (wake : Int)
  | started (startTime : Int)
deriving DecidableEq, Repr

/-- Shared `self._last_request_time` plus the phase of each of the two
concurrently admitted holders (the semaphore bound is 2). -/
structure SpacingState where
  last : Int
  holderA : HolderPhase
  holderB : HolderPhase
deriving DecidableEq, Repr

/-- Atomic block 1 of one holder, executed at wall-clock time `t` with
jitter `jitter` drawn for this holder: lines 205–211 of the source up to
either the `asyncio.sleep` suspension or (when no wait is needed) the
write of `_last_request_time` and the attempt start.  Returns the new
phase of the holder and the new `_last_request_time`. -/
def spacingCheck (jitter : Int) (t : Int) (last : Int) : HolderPhase × Int :=
  let elapsed := t - last
  if elapsed < min_interval then
    (HolderPhase.sleeping (t + (min_interval - elapsed) + jitter), last)
  else
    (HolderPhase.started t, t)

/-- Atomic block 2 of one holder: waking from `asyncio.sleep` at time `t`,
it writes `self._last_request_time = time.time()` and the attempt starts. -/
def spacingWake (t : Int) : HolderPhase × Int :=
  (HolderPhase.started t, t)

/-- One scheduler event: holder `who` (`false` = A, `true` = B) runs its
next atomic block at time `t`.  `none` marks an impossible event: time
running backwards, waking before the sleep deadline, or scheduling a
holder that has already started. -/
def spacingEvent (jA jB : Int) (s : SpacingState) (who : Bool) (t : Int) :
    Option SpacingState :=
  let phase := if who then s.holderB else s.holderA
  let put : HolderPhase × Int → SpacingState := fun p =>
    if who then ⟨p.2, s.holderA, p.1⟩ else ⟨p.2, p.1, s.holderB⟩
  match phase with
  | HolderPhase.atCheck => some (put (spacingCheck (if who then jB else jA) t s.last))
  | HolderPhase.sleeping wake => if wake ≤ t then some (put (spacingWake t)) else none
  | HolderPhase.started _ => none

/-- Run a schedule (a list of events with non-decreasing times) from a
state; `none` if any event is impossible. -/
def spacingRun (jA jB : Int) : SpacingState → List (Bool × Int) → Option SpacingState
  | s, [] => some s
  | s, (who, t) :: rest =>
    match spacingEvent jA jB s who t with
    | none => none
    | some s' => spacingRun jA jB s' rest

/-- Times in a schedule are non-decreasing and non-negative. -/
def monotoneSchedule : Int → List (Bool × Int) → Bool
  | _, [] => true
  | t0, (_, t) :: rest => t0 ≤ t && monotoneSchedule t rest

/-- The jitter `random.uniform(0.1, 0.5)` lies in `[1, 5]` tenths. -/
def jitterInRange (j : Int) : Bool := 1 ≤ j && j ≤ 5

/-! ## Failure handling of `get_token` (browser_captcha.py lines 213–438)

Each awaited Playwright call may raise; the whole attempt body sits in a
`try`/`except` that converts any exception into `return None`
(lines 429–431), except that `page.goto` has its own inner
`try`/`except` (lines 323–326) which merely logs a navigation failure
and lets the flow continue.  The readiness poll (lines 358–370) breaks
early when `grecaptcha` becomes ready and otherwise, after 20 rounds,
logs a warning and continues anyway.  The environment below fixes the
outcome of every external interaction of one attempt. -/

/-- Outcomes of the external steps of one acquisition attempt.  A `_ok`
field set to `false` means that step raised an exception.  `ready_at`
is the first of the 20 poll rounds where `grecaptcha` is ready (`none`:
never within the budget).  `exec_token` is what the final
`page.evaluate` returns (`none` models JavaScript `null`; the executing
script catches its own errors and returns `null`). -/
structure AcquireEnv where
  new_page_ok : Bool
  init_script_ok : Bool
  nav_ok : Bool
  check_ok : Bool
  script_loaded : Bool
  inject_ok : Bool
  ready_at : Option (Fin 20)
  poll_ok : Bool
  exec_ok : Bool
  exec_token : Option String
deriving DecidableEq, Repr

/-- An awaited call that raises when `ok` is false. -/
def awaitStep (ok : Bool) : Except Unit Unit :=
  if ok then Except.ok () else Except.error ()

/-- Model of `page.goto` wrapped in its own `try`/`except Exception` (lines
323–326): a navigation timeout or error is logged and swallowed. -/
def gotoStep (ok : Bool) : Except Unit Unit :=
  match awaitStep ok with
  | Except.ok _ => Except.ok ()
  | Except.error _ => Except.ok ()

/-- The readiness poll (lines 358–370): breaks out early if ready,
otherwise exhausts its 20 rounds and continues anyway; the outcome does
not affect control flow past the loop. -/
def pollReady (ready_at : Option (Fin 20)) : Except Unit Unit :=
  match ready_at with
  | some _ => Except.ok ()
  | none => Except.ok ()

/-- The attempt body of `get_token` inside the `try` (lines 216–427),
before the outer exception handler is applied: `Except.error ()` is an
exception propagating out of the body. -/
def getTokenBody (env : AcquireEnv) : Except Unit (Option String) := do
  _ ← awaitStep env.new_page_ok
  _ ← awaitStep env.init_script_ok
  _ ← gotoStep env.nav_ok
  _ ← awaitStep env.check_ok
  if ¬ env.script_loaded then
    _ ← awaitStep env.inject_ok
  _ ← awaitStep env.poll_ok
  _ ← pollReady env.ready_at
  _ ← awaitStep env.exec_ok
  match env.exec_token with
  | some tok => if tok ≠ "" then pure (some tok) else pure none
  | none => pure none

/-- Returns `true` iff control reaches the final `page.evaluate` that executes
the challenge (no step before it raised). -/
def execAttempted (env : AcquireEnv) : Bool :=
  env.new_page_ok && env.init_script_ok && env.check_ok
    && (env.script_loaded || env.inject_ok) && env.poll_ok

/-- Result of `get_token` for one attempt: the body with the outer
`except Exception: return None` handler (lines 429–431) applied. -/
def getTokenResult (env : AcquireEnv) : Option String :=
  match getTokenBody env with
  | Except.ok r => r
  | Except.error _ => none

/-! ## Proxy URL parsing and validation (browser_captcha.py lines 25–85)

`parse_proxy_url` matches the input against the anchored regex
`^(socks5|http|https)://(?:([^:]+):([^@]+)@)?([^:]+):(\d+)$`.
Backtracking on this pattern is deterministic: the scheme is a
literal alternative followed by `://`; in the optional credentials group
`[^:]+` must end at the first `:` and `[^@]+` at the first following
`@` (neither class can cross its own delimiter, so no other split is
reachable by backtracking); the host `[^:]+` must end at the first
remaining `:`; and the anchored `\d+$` must consume the entire rest.
The definitions below implement exactly that.  Strings are `List Char`;
`\d` is modelled by `Char.isDigit`. -/

/-- Strip a literal leading run: `some rest` iff the second list starts
with the first. -/
def dropStart : List Char → List Char → Option (List Char)
  | [], r => some r
  | _ :: _, [] => none
  | a :: as, b :: bs => if a = b then dropStart as bs else none

/-- Split at the first occurrence of `c`: `some (before, after)` with
`c` itself dropped, `none` when `c` does not occur. -/
def splitAtFirst (c : Char) : List Char → Option (List Char × List Char)
  | [] => none
  | x :: xs =>
    if x = c then some ([], xs)
    else (splitAtFirst c xs).map (fun p => (x :: p.1, p.2))

/-- Match `([^:]+):(\d+)$`: host up to the first colon (non-empty), then
one or more digits to the end. -/
def matchHostPort (r : List Char) : Option (List Char × List Char) :=
  match splitAtFirst ':' r with
  | none => none
  | some (h, p) =>
    if h ≠ [] ∧ p ≠ [] ∧ p.all Char.isDigit then some (h, p) else none

/-- Match `([^:]+):([^@]+)@([^:]+):(\d+)$`: user up to the first colon,
password up to the first following `@`, then host and port. -/
def matchAuthHostPort (r : List Char) :
    Option (List Char × List Char × List Char × List Char) :=
  match splitAtFirst ':' r with
  | none => none
  | some (user, r1) =>
    if user = [] then none
    else
      match splitAtFirst '@' r1 with
      | none => none
      | some (pass, r2) =>
        if pass = [] then none
        else
          match matchHostPort r2 with
          | none => none
          | some (h, p) => some (user, pass, h, p)

/-- The remainder after `scheme://`: the greedy optional credentials
group is tried first, then the plain `host:port` form. -/
def matchRemainder (r : List Char) :
    Option (Option (List Char × List Char) × List Char × List Char) :=
  match matchAuthHostPort r with
  | some (user, pass, h, p) => some (some (user, pass), h, p)
  | none =>
    match matchHostPort r with
    | none => none
    | some (h, p) => some (none, h, p)

/-- The scheme alternative `^(socks5|http|https)://`: returns the scheme
characters and the remainder.  (The three alternatives followed by
`://` are mutually exclusive literal runs.) -/
def matchScheme (url : List Char) : Option (List Char × List Char) :=
  match dropStart "socks5://".data url with
  | some rest => some ("socks5".data, rest)
  | none =>
    match dropStart "http://".data url with
    | some rest => some ("http".data, rest)
    | none =>
      match dropStart "https://".data url with
      | some rest => some ("https".data, rest)
      | none => none

/-- The dictionary built by `parse_proxy_url`: `server` plus the
credential entries that are present only when the regex captured them. -/
structure ProxyConfig where
  server : List Char
  username : Option (List Char)
  password : Option (List Char)
deriving DecidableEq, Repr

/-- Model of `parse_proxy_url` (lines 25–46): regex match, then the
f-string assembling `server` as protocol, `://`, host, `:`, port,
adding `username`/`password` only when both captures are truthy
(`if username and password:`). -/
def parse_proxy_url (proxy_url : List Char) : Option ProxyConfig :=
  match matchScheme proxy_url with
  | none => none
  | some (protocol, rest) =>
    match matchRemainder rest with
    | none => none
    | some (auth, host, port) =>
      match auth with
      | some (user, pass) =>
        if user ≠ [] ∧ pass ≠ [] then
          some ⟨protocol ++ "://".data ++ host ++ ":".data ++ port, some user, some pass⟩
        else some ⟨protocol ++ "://".data ++ host ++ ":".data ++ port, none, none⟩
      | none => some ⟨protocol ++ "://".data ++ host ++ ":".data ++ port, none, none⟩

/-- Model of the protocol extraction at line 71, str.split with the
separator `://` taking element 0: the characters before the first
occurrence of `://` (the whole list when the separator does not
occur). -/
def splitSepHead : List Char → List Char
  | ':' :: '/' :: '/' :: _ => []
  | c :: rest => c :: splitSepHead rest
  | [] => []

/-- Python `str.strip()` on both ends. -/
def pyStrip (l : List Char) : List Char :=
  ((l.dropWhile Char.isWhitespace).reverse.dropWhile Char.isWhitespace).reverse

/-- The format-error reason of `validate_browser_proxy_url` (line 65). -/
def fmt_error_msg : List Char :=
  "代理URL格式错误，正确格式：http://host:port 或 socks5://host:port".data

/-- The SOCKS5-authentication reason (line 75). -/
def socks5_auth_error_msg : List Char :=
  "浏览器不支持带认证的SOCKS5代理，请使用HTTP代理或移除SOCKS5认证".data

/-- The unsupported-protocol reason (line 85), naming the scheme. -/
def unsupported_protocol_msg (protocol : List Char) : List Char :=
  "不支持的代理协议：".data ++ protocol

/-- Model of `validate_browser_proxy_url` (lines 49–85). -/
def validate_browser_proxy_url (proxy_url : List Char) : Bool × List Char :=
  if proxy_url = [] ∨ pyStrip proxy_url = [] then (true, [])
  else
    match parse_proxy_url (pyStrip proxy_url) with
    | none => (false, fmt_error_msg)
    | some parsed =>
      if splitSepHead parsed.server = "socks5".data ∧ parsed.username.isSome then
        (false, socks5_auth_error_msg)
      else if splitSepHead parsed.server = "http".data
          ∨ splitSepHead parsed.server = "https".data then (true, [])
      else if splitSepHead parsed.server = "socks5".data
          ∧ ¬ parsed.username.isSome then (true, [])
      else (false, unsupported_protocol_msg (splitSepHead parsed.server))

/-! ## Theorems: load balancer -/

/-- Anything `select_token` returns was a member of `available_tokens`,
the filtered pool. -/
lemma select_token_mem_filter (env : LBEnv) (fi fv : Bool) (m k : Option String)
    (active : List Token) (draw : Nat) (t : Token)
    (h : select_token env fi fv m k active draw = some t) :
    t ∈ active.filter (eligibleToken env fi fv k) := by
  by_cases ha : active.isEmpty
  · simp [select_token, ha] at h
  · by_cases hb : (active.filter (eligibleToken env fi fv k)).isEmpty
    · simp only [select_token, if_neg ha, hb, if_true] at h
      exact absurd h (by simp)
    · simp only [select_token, if_neg ha, hb, if_false] at h
      exact List.getElem?_mem h

/-- A token surviving the filter loop has a valid access token. -/
lemma eligibleToken_at_valid (env : LBEnv) (fi fv : Bool) (k : Option String)
    (t : Token) (h : eligibleToken env fi fv k t = true) :
    env.is_at_valid t.id = true := by
  unfold eligibleToken at h
  cases hv : env.is_at_valid t.id
  · simp [hv] at h
  · rfl

/-- Under a premium key, a token surviving the filter loop is in the
premium-tier set. -/
lemma eligibleToken_premium (env : LBEnv) (fi fv : Bool) (k : Option String)
    (t : Token) (h : eligibleToken env fi fv k t = true)
    (hk : k = some API_KEY_TYPE_PREMIUM) :
    t.user_paygate_tier ∈ PREMIUM_PAYGATE_TIERS := by
  unfold eligibleToken at h
  cases hv : env.is_at_valid t.id
  · simp [hv] at h
  · by_contra hmem
    simp [hv, hk, hmem] at h

/-- C1: for every account pool, random draw and access scope,
`LoadBalancer.select_token` never returns a token whose access token is
invalid, and under a premium key it never returns a token whose
`user_paygate_tier` is outside `PREMIUM_PAYGATE_TIERS`. -/
theorem select_token_valid_and_premium_only (env : LBEnv) (fi fv : Bool)
    (m k : Option String) (active : List Token) (draw : Nat) (t : Token)
    (h : select_token env fi fv m k active draw = some t) :
    env.is_at_valid t.id = true ∧
      (k = some API_KEY_TYPE_PREMIUM →
        t.user_paygate_tier ∈ PREMIUM_PAYGATE_TIERS) := by
  have hmem := select_token_mem_filter env fi fv m k active draw t h
  have helig := (List.mem_filter.mp hmem).2
  exact ⟨eligibleToken_at_valid env fi fv k t helig,
    fun hk => eligibleToken_premium env fi fv k t helig hk⟩

/-- An environment where every external check passes (used to instantiate
the universally quantified theorems at concrete inputs). -/
def envAll : LBEnv := ⟨fun _ => true, false, fun _ => true, fun _ => true⟩

/-- A premium-tier account. -/
def premiumTok : Token := ⟨1, "p@x", 10, true, true, "PAYGATE_TIER_TWO"⟩

/-- A non-premium account. -/
def basicTok : Token := ⟨2, "b@x", 3, true, false, "PAYGATE_TIER_NOT_PAID"⟩

/-- Witness for C1 at a concrete pool and premium scope. -/
theorem select_token_valid_and_premium_only_witness :
    envAll.is_at_valid premiumTok.id = true ∧
      (some API_KEY_TYPE_PREMIUM = some API_KEY_TYPE_PREMIUM →
        premiumTok.user_paygate_tier ∈ PREMIUM_PAYGATE_TIERS) :=
  select_token_valid_and_premium_only envAll false false none
    (some API_KEY_TYPE_PREMIUM) [basicTok, premiumTok] 0 premiumTok (by decide)

/-- C7: when the post-filtering eligible subset is nonempty,
`select_token` returns one of its members, for every random draw; when it
is empty (including an empty active pool) the result is `none` (the
function is total: it cannot throw). -/
theorem select_token_eligible_subset (env : LBEnv) (fi fv : Bool)
    (m k : Option String) (active : List Token) (draw : Nat) :
    (active.filter (eligibleToken env fi fv k) ≠ [] →
      ∃ t, select_token env fi fv m k active draw = some t ∧
        t ∈ active.filter (eligibleToken env fi fv k)) ∧
    (active.filter (eligibleToken env fi fv k) = [] →
      select_token env fi fv m k active draw = none) := by
  constructor
  · intro hE
    by_cases ha : active.isEmpty
    · exfalso
      apply hE
      rw [List.isEmpty_iff.mp ha]
      rfl
    · have hlen : 0 < (active.filter (eligibleToken env fi fv k)).length :=
        List.length_pos.mpr hE
      have hlt : draw % (active.filter (eligibleToken env fi fv k)).length <
          (active.filter (eligibleToken env fi fv k)).length := Nat.mod_lt _ hlen
      have hget := List.getElem?_eq_getElem hlt
      refine ⟨_, ?_, List.getElem?_mem hget⟩
      have hb : ¬ (active.filter (eligibleToken env fi fv k)).isEmpty = true := by
        simp [List.isEmpty_iff, hE]
      simp only [select_token, if_neg ha, hb, if_false]
      exact hget
  · intro hE
    by_cases ha : active.isEmpty
    · simp [select_token, ha]
    · simp [select_token, ha, hE]

/-- Witness for C7: a nonempty eligible subset yields one of its members;
an empty pool yields `none`. -/
theorem select_token_eligible_subset_witness :
    (∃ t, select_token envAll false false none none [premiumTok] 3 = some t ∧
      t ∈ [premiumTok].filter (eligibleToken envAll false false none)) ∧
    select_token envAll false false none none [] 0 = none :=
  ⟨(select_token_eligible_subset envAll false false none none [premiumTok] 3).1
      (by decide),
   (select_token_eligible_subset envAll false false none none [] 0).2 rfl⟩

/-- C9: the `model` argument never influences the result of
`select_token`: for any two model values and otherwise identical inputs
the selections coincide. -/
theorem select_token_model_independent (env : LBEnv) (fi fv : Bool)
    (k : Option String) (active : List Token) (draw : Nat)
    (m1 m2 : Option String) :
    select_token env fi fv m1 k active draw =
      select_token env fi fv m2 k active draw := rfl

/-! ## Theorems: API key classification -/

/-- C4 counterexample: the premium biconditional of the claim ("the premium
classification exactly when a secondary key is configured non-empty and
the credential equals it") fails when the primary and secondary keys are
configured equal: the credential then equals the configured non-empty
secondary key, yet `get_api_key_type` answers `"normal"`, because the
primary check runs first. -/
theorem get_api_key_type_shared_key_counterexample :
    get_api_key_type ⟨"shared-key", "shared-key"⟩ "shared-key" =
        some API_KEY_TYPE_NORMAL ∧
      ¬ (get_api_key_type ⟨"shared-key", "shared-key"⟩ "shared-key" =
            some API_KEY_TYPE_PREMIUM ↔
          (("shared-key" : String) ≠ "" ∧
            ("shared-key" : String) = "shared-key")) := by
  constructor
  · rfl
  · intro hiff
    have h2 := hiff.mpr ⟨by decide, rfl⟩
    exact absurd (h2 ▸ rfl : some API_KEY_TYPE_PREMIUM = some API_KEY_TYPE_NORMAL)
      (by decide)

/-- C4 amended: `get_api_key_type` answers `"normal"` exactly when the
credential equals the primary key; `"premium"` exactly when the
credential differs from the primary key, the secondary key is configured
non-empty, and the credential equals it (the primary key takes
precedence when the two configured keys coincide); `none` otherwise —
always by exact string equality. -/
theorem get_api_key_type_classification (cfg : AuthConfig) (k : String) :
    (get_api_key_type cfg k = some API_KEY_TYPE_NORMAL ↔ k = cfg.api_key) ∧
    (get_api_key_type cfg k = some API_KEY_TYPE_PREMIUM ↔
      (k ≠ cfg.api_key ∧ cfg.premium_api_key ≠ "" ∧ k = cfg.premium_api_key)) ∧
    (get_api_key_type cfg k = none ↔
      (k ≠ cfg.api_key ∧ ¬ (cfg.premium_api_key ≠ "" ∧ k = cfg.premium_api_key))) := by
  have hne : API_KEY_TYPE_NORMAL ≠ API_KEY_TYPE_PREMIUM := by decide
  by_cases h1 : k = cfg.api_key
  · simp [get_api_key_type, h1, hne, Ne.symm hne]
  · by_cases h2 : cfg.premium_api_key ≠ "" ∧ k = cfg.premium_api_key
    · obtain ⟨h2a, h2b⟩ := h2
      have h3 : ¬ cfg.premium_api_key = cfg.api_key := fun h => h1 (h2b.trans h)
      simp [get_api_key_type, h1, h2a, h2b, h3, hne, Ne.symm hne]
    · simp [get_api_key_type, h1, h2, hne, Ne.symm hne]

/-- Witness for the amended C4 classification at concrete configurations:
a premium credential, a primary credential, and a rejected credential. -/
theorem get_api_key_type_classification_witness :
    get_api_key_type ⟨"main", "vip"⟩ "vip" = some API_KEY_TYPE_PREMIUM ∧
    get_api_key_type ⟨"main", "vip"⟩ "main" = some API_KEY_TYPE_NORMAL ∧
    get_api_key_type ⟨"main", "vip"⟩ "other" = none :=
  ⟨(get_api_key_type_classification ⟨"main", "vip"⟩ "vip").2.1.mpr
      ⟨by decide, by decide, rfl⟩,
   (get_api_key_type_classification ⟨"main", "vip"⟩ "main").1.mpr rfl,
   (get_api_key_type_classification ⟨"main", "vip"⟩ "other").2.2.mpr
      ⟨by decide, by decide⟩⟩

/-! ## Theorems: lifecycle, admission, spacing -/

/-- C6 counterexample: after an explicit `close`, the very next
`get_token` on the same singleton instance re-runs initialization and
returns the session to the ready state — the closed state is not
terminal and no new session needs to be constructed. -/
theorem close_then_get_token_reinitializes :
    closeBrowser ⟨true, true⟩ = ⟨false, false⟩ ∧
      getTokenEntry (closeBrowser ⟨true, true⟩) true = ⟨true, true⟩ := by
  decide

/-- C6 amended: `close` always resets the session to the uninitialized
state (`_initialized = False`, `context = None`), and from there any
subsequent `get_token` (whatever the liveness probe reports)
automatically re-initializes the same instance back to ready. -/
theorem close_not_terminal (s : SessionState) (alive : Bool) :
    closeBrowser s = ⟨false, false⟩ ∧
      getTokenEntry (closeBrowser s) alive = ⟨true, true⟩ := by
  cases alive <;> exact ⟨rfl, rfl⟩

/-- The value of the admission semaphore and the instrumented holder count
always sum to `max_concurrent`. -/
lemma sem_invariant {s : SemState} (h : SemReachable s) :
    s.avail + s.holders = max_concurrent := by
  induction h with
  | init => rfl
  | step _ hs ih =>
    cases hs with
    | acquire hpos => simp only at ih ⊢; omega
    | release hpos => simp only at ih ⊢; omega

/-- C3: in every reachable state of the admission gate, at most
`max_concurrent` (= 2) `get_token` callers hold the semaphore slot at
the same instant, for any number of concurrent callers and any
interleaving. -/
theorem sem_holders_le_max (s : SemState) (h : SemReachable s) :
    s.holders ≤ max_concurrent := by
  have := sem_invariant h
  omega

/-- Witness for C3: the state after two acquisitions (both slots taken)
is reachable and its holder count is within the bound. -/
theorem sem_holders_le_max_witness : (⟨0, 2⟩ : SemState).holders ≤ max_concurrent :=
  sem_holders_le_max ⟨0, 2⟩
    (SemReachable.step
      (SemReachable.step SemReachable.init (SemStep.acquire ⟨2, 0⟩ (by decide)))
      (SemStep.acquire ⟨1, 1⟩ (by decide)))

/-- C2: the spacing check is not a critical section.  Both holders
admitted by the two-slot semaphore can run the check before either has
updated `_last_request_time`: with `_last_request_time = 0`, both run
block 1 at t = 0.5s (elapsed 0.5s < 1.0s, so both sleep), holder A with
jitter 0.1s wakes and starts at 1.1s, holder B with jitter 0.2s at
1.2s.  The schedule is time-monotone, the jitters are inside
`random.uniform(0.1, 0.5)`, and the two attempt starts are 0.1s apart —
less than `min_interval = 1.0s`. -/
theorem spacing_race_two_starts_within_interval :
    spacingRun 1 2 ⟨0, HolderPhase.atCheck, HolderPhase.atCheck⟩
        [(false, 5), (true, 5), (false, 11), (true, 12)] =
      some ⟨12, HolderPhase.started 11, HolderPhase.started 12⟩ ∧
    monotoneSchedule 0 [(false, 5), (true, 5), (false, 11), (true, 12)] = true ∧
    jitterInRange 1 = true ∧ jitterInRange 2 = true ∧
    (12 : Int) - 11 < min_interval := by
  decide

/-! ## Theorems: `get_token` failure handling -/

/-- A navigation failure is swallowed by the inner handler. -/
lemma gotoStep_eq (b : Bool) : gotoStep b = Except.ok () := by
  cases b <;> rfl

/-- The readiness poll never raises: ready or not, the flow continues. -/
lemma pollReady_eq (r : Option (Fin 20)) : pollReady r = Except.ok () := by
  cases r <;> rfl

/-- C8: for every combination of step outcomes, (i) an exception thrown
anywhere in the attempt body yields `None`, not a propagated exception;
(ii) the result does not depend on the navigation outcome or on whether
the readiness poll ever succeeded (soft failures — the challenge
execution is still attempted); (iii) if execution is reached and returns
null, the result is `None`; (iv) if some step before execution raised,
the result is `None`. -/
theorem get_token_no_throw_and_soft_failures
    (np ins nav ck sl ij : Bool) (ra : Option (Fin 20)) (po ex : Bool)
    (tok : Option String) :
    (getTokenBody ⟨np, ins, nav, ck, sl, ij, ra, po, ex, tok⟩ = Except.error () →
      getTokenResult ⟨np, ins, nav, ck, sl, ij, ra, po, ex, tok⟩ = none) ∧
    (∀ (nav2 : Bool) (ra2 : Option (Fin 20)),
      getTokenResult ⟨np, ins, nav, ck, sl, ij, ra, po, ex, tok⟩ =
        getTokenResult ⟨np, ins, nav2, ck, sl, ij, ra2, po, ex, tok⟩) ∧
    (execAttempted ⟨np, ins, nav, ck, sl, ij, ra, po, ex, tok⟩ = true →
      tok = none →
      getTokenResult ⟨np, ins, nav, ck, sl, ij, ra, po, ex, tok⟩ = none) ∧
    (execAttempted ⟨np, ins, nav, ck, sl, ij, ra, po, ex, tok⟩ = false →
      getTokenResult ⟨np, ins, nav, ck, sl, ij, ra, po, ex, tok⟩ = none) := by
  refine ⟨?_, ?_, ?_, ?_⟩
  · intro h
    simp [getTokenResult, h]
  · intro nav2 ra2
    simp [getTokenResult, getTokenBody, gotoStep_eq, pollReady_eq]
  · intro hA htok
    subst htok
    clear hA
    cases np <;> cases ins <;> cases nav <;> cases ck <;> cases sl <;> cases ij <;>
      cases ra <;> cases po <;> cases ex <;> rfl
  · intro hA
    revert hA
    cases np <;> cases ins <;> cases nav <;> cases ck <;> cases sl <;> cases ij <;>
      cases ra <;> cases po <;> cases ex <;>
      first
        | (intro hA; rfl)
        | (intro hA; simp [execAttempted] at hA)

/-- Witness for C8: navigation times out, the script never becomes ready
within the 20-round budget, execution is still attempted, and when the
execution returns null the whole call returns `None` instead of
throwing. -/
theorem get_token_soft_failure_witness :
    execAttempted ⟨true, true, false, true, false, true, none, true, true, none⟩ = true ∧
    getTokenResult ⟨true, true, false, true, false, true, none, true, true, none⟩ = none :=
  ⟨rfl,
   (get_token_no_throw_and_soft_failures true true false true false true none true true
        none).2.2.1 rfl rfl⟩

/-! ## Theorems: proxy URL validation -/

/-- Protocol extraction from a server string assembled with a `socks5`
scheme. -/
lemma splitSepHead_socks5 (l : List Char) :
    splitSepHead ("socks5".data ++ "://".data ++ l) = "socks5".data := rfl

/-- Protocol extraction from a server string assembled with an `http`
scheme. -/
lemma splitSepHead_http (l : List Char) :
    splitSepHead ("http".data ++ "://".data ++ l) = "http".data := rfl

/-- Protocol extraction from a server string assembled with an `https`
scheme. -/
lemma splitSepHead_https (l : List Char) :
    splitSepHead ("https".data ++ "://".data ++ l) = "https".data := rfl

/-- The scheme matcher only ever produces one of the three literal
schemes of the regex alternation. -/
lemma matchScheme_protocol {u protocol rest : List Char}
    (h : matchScheme u = some (protocol, rest)) :
    protocol = "socks5".data ∨ protocol = "http".data ∨ protocol = "https".data := by
  unfold matchScheme at h
  split at h
  · simp only [Option.some.injEq, Prod.mk.injEq] at h
    exact Or.inl h.1.symm
  · split at h
    · simp only [Option.some.injEq, Prod.mk.injEq] at h
      exact Or.inr (Or.inl h.1.symm)
    · split at h
      · simp only [Option.some.injEq, Prod.mk.injEq] at h
        exact Or.inr (Or.inr h.1.symm)
      · exact absurd h (by simp)

/-- For every successful parse, the extracted protocol of the server is one of the
three schemes admitted by the regex. -/
lemma parse_server_protocol {u : List Char} {cfg : ProxyConfig}
    (h : parse_proxy_url u = some cfg) :
    splitSepHead cfg.server = "socks5".data ∨
    splitSepHead cfg.server = "http".data ∨
    splitSepHead cfg.server = "https".data := by
  unfold parse_proxy_url at h
  split at h
  · exact absurd h (by simp)
  · rename_i protocol rest heq
    split at h
    · exact absurd h (by simp)
    · rename_i auth host port hrem
      have hserver : cfg.server = protocol ++ "://".data ++ host ++ ":".data ++ port := by
        split at h
        · split at h
          · exact (congrArg ProxyConfig.server (Option.some.inj h)).symm
          · exact (congrArg ProxyConfig.server (Option.some.inj h)).symm
        · exact (congrArg ProxyConfig.server (Option.some.inj h)).symm
      rw [hserver]
      rcases matchScheme_protocol heq with hp | hp | hp <;> rw [hp]
      · exact Or.inl (splitSepHead_socks5 _)
      · exact Or.inr (Or.inl (splitSepHead_http _))
      · exact Or.inr (Or.inr (splitSepHead_https _))

/-- C10: `validate_browser_proxy_url` never produces the
unsupported-protocol reason: every result is "valid", the generic
format-error rejection, or the SOCKS5-authentication rejection, because
any scheme outside {socks5, http, https} already fails the parsing
regex. -/
theorem validate_never_unsupported_protocol (url : List Char) :
    validate_browser_proxy_url url = (true, []) ∨
    validate_browser_proxy_url url = (false, fmt_error_msg) ∨
    validate_browser_proxy_url url = (false, socks5_auth_error_msg) := by
  unfold validate_browser_proxy_url
  split
  · exact Or.inl rfl
  · split
    · exact Or.inr (Or.inl rfl)
    · rename_i parsed heq
      have hs5 : ("socks5".data : List Char) ≠ "http".data := by decide
      have hs5b : ("socks5".data : List Char) ≠ "https".data := by decide
      have hhb : ("http".data : List Char) ≠ "socks5".data := by decide
      have hhsb : ("https".data : List Char) ≠ "socks5".data := by decide
      rcases parse_server_protocol heq with hp | hp | hp <;>
        rcases hauth : parsed.username.isSome with _ | _ <;>
          simp [hp, hauth, hs5, hs5b, hhb, hhsb]

/-- C5 counterexample: `validate_browser_proxy_url("ftp://host:21")` is
rejected, but with the generic format-error reason — not with an
unsupported-protocol reason naming `ftp` — because `ftp` already fails
the scheme alternation of the parsing regex. -/
theorem validate_ftp_counterexample :
    validate_browser_proxy_url "ftp://host:21".data = (false, fmt_error_msg) ∧
      fmt_error_msg ≠ unsupported_protocol_msg "ftp".data := by
  decide

/-- C5 amended: the empty string is valid (no proxy);
`socks5://u:p@host:1080` is invalid with the SOCKS5-authentication
reason; `http://u:p@host:8080` is valid; `ftp://host:21` is invalid
with the generic format-error reason (the scheme already fails the
parse, so no reason naming `ftp` is produced). -/
theorem validate_vectors :
    validate_browser_proxy_url "".data = (true, []) ∧
    validate_browser_proxy_url "socks5://u:p@host:1080".data =
      (false, socks5_auth_error_msg) ∧
    validate_browser_proxy_url "http://u:p@host:8080".data = (true, []) ∧
    validate_browser_proxy_url "ftp://host:21".data = (false, fmt_error_msg) := by
  decide
